import Mathlib

/-!
# Verification of the scorj score-combination and consensus engine

Shallow embedding of the scoring core of the `sohv/scorj` repository:

* `src/utils/scoring_engine_dual.py` — per-judge confidence estimation
  (`ScoringResult._calculate_confidence`) and the consensus combination
  (`DualScoringEngine._intelligent_score_combination`);
* `src/utils/structured_comments.py` — the multi-dimensional intent/alignment
  validators and the bonus calculation;
* `src/utils/base_scoring_engine.py` — experience date-range parsing
  (`BaseScoringEngine._extract_years_from_date`).

Numbers are embedded as exact rationals (`ℚ`); Python's `int()` conversion is
modelled by `pyInt` (truncation toward zero).  Strings are Lean `String`s and
Python's substring test `a in b` is modelled by `containsSub`.
-/

namespace Scorj

/-- Python's `int()` applied to a number: truncation toward zero. -/
def pyInt (q : ℚ) : ℤ := if 0 ≤ q then ⌊q⌋ else ⌈q⌉

/-- Does `needle` occur as a contiguous sublist starting at some suffix of `hay`? -/
def listContains (needle : List Char) : List Char → Bool
  | [] => needle.isEmpty
  | c :: t => needle.isPrefixOf (c :: t) || listContains needle t

/-- Python's substring operator `needle in hay` on strings. -/
def containsSub (needle hay : String) : Bool :=
  listContains needle.toList hay.toList

/-- Python's `any(k in hay for k in needles)`. -/
def containsAnySub (needles : List String) (hay : String) : Bool :=
  needles.any (fun n => containsSub n hay)

/-- Python's `str.lower()` (ASCII range, which covers every string the code
compares against).  Defined on the character list so that it reduces. -/
def pyLower (s : String) : String :=
  ⟨s.data.map Char.toLower⟩

/-!
## `ScoringResult` (src/utils/scoring_engine_dual.py, lines 14-54)

The Python class wraps a judge's raw result dictionary.  The fields below are
the dictionary entries the scoring logic reads: `overall_score`,
`confidence_level`, `error_occurred`, the nested
`transparency.validation.fallback_used` flag, and the presence of the
`openai_results` / `gemini_results` keys (used only by `_get_provider`).
-/

structure ScoringResult where
  overall_score : ℚ
  confidence_level : String
  error_occurred : Bool
  fallback_used : Bool
  has_openai_results : Bool
  has_gemini_results : Bool
  deriving Repr, DecidableEq

namespace ScoringResult

/-- The base-confidence lookup
`{'high': 0.9, 'medium': 0.7, 'low': 0.4}.get(confidence_level, 0.5)`
(the level string is lowercased by the caller). -/
def baseConfidence (level : String) : ℚ :=
  if level = "high" then 9/10
  else if level = "medium" then 7/10
  else if level = "low" then 2/5
  else 1/2

/-- `ScoringResult._calculate_confidence` (lines 23-46): 0.0 on error;
otherwise the base confidence, +0.1 for extreme scores (≥85 or ≤25),
−0.1 for mid-band scores (40-70, `elif`), −0.2 when the judge's transparency
metadata reports `fallback_used`, clamped by `max(0.1, min(1.0, ·))`. -/
def calcConfidence (r : ScoringResult) : ℚ :=
  if r.error_occurred then 0
  else
    let base := baseConfidence (pyLower r.confidence_level)
    let base :=
      if 85 ≤ r.overall_score ∨ r.overall_score ≤ 25 then base + 1/10
      else if 40 ≤ r.overall_score ∧ r.overall_score ≤ 70 then base - 1/10
      else base
    let base := if r.fallback_used then base - 1/5 else base
    max (1/10) (min 1 base)

/-- `ScoringResult._get_provider` (lines 48-54). -/
def getProvider (r : ScoringResult) : String :=
  if r.has_openai_results then "OpenAI"
  else if r.has_gemini_results then "Gemini"
  else "Unknown"

end ScoringResult

/-!
## Consensus combination (`DualScoringEngine._intelligent_score_combination`,
src/utils/scoring_engine_dual.py lines 148-226)

The structured-analysis dictionary is read only for its three fallback
sub-scores (`skills_match_percentage`, `level_match_score`,
`degree_level_score`), so it is embedded as a record of those.  Of the combined
response the embedding keeps the fields the specification's claims are about:
`overall_score` (the combined score, a plain number: the `int()` of the
weighted mean for ≥2 judges, the single judge's score verbatim for one judge,
the `int()` of the structured composite in the fallback) and
`consensus_level`.  The qualitative fields (`ai_comparison` details, primary
result selection, agreement analysis) are not referenced by any claim and are
omitted.
-/

structure StructuredAnalysis where
  skills_match_percentage : ℚ
  level_match_score : ℚ
  degree_level_score : ℚ
  deriving Repr, DecidableEq

structure CombinedAnalysis where
  overall_score : ℚ
  consensus_level : String
  deriving Repr, DecidableEq

/-- `valid_results = [r for r in scoring_results if not r.error_occurred and r.score > 0]`. -/
def validResults (rs : List ScoringResult) : List ScoringResult :=
  rs.filter (fun r => !r.error_occurred && decide (0 < r.overall_score))

/-- `weighted_sum = sum(r.score * r.confidence for r in valid_results)`. -/
def weightedSum (rs : List ScoringResult) : ℚ :=
  (rs.map (fun r => r.overall_score * r.calcConfidence)).sum

/-- `total_confidence = sum(r.confidence for r in valid_results)`. -/
def totalConfidence (rs : List ScoringResult) : ℚ :=
  (rs.map (fun r => r.calcConfidence)).sum

/-- The consensus banding for ≥2 judges.  The source compares the coefficient
of variation `std_dev / mean_score` (with `cv = 1.0` when `mean_score ≤ 0`)
against the cutoffs 0.1 / 0.2 / 0.35 / 0.5.  Since `std_dev = sqrt variance`
is irrational, the comparison `std/mean ≤ c` is embedded by the equivalent
(for `mean > 0`, all quantities nonnegative) `variance ≤ c² * mean²`. -/
def consensusBand (variance mean : ℚ) : String :=
  if 0 < mean then
    if variance ≤ (1/100) * mean ^ 2 then "Very High"
    else if variance ≤ (1/25) * mean ^ 2 then "High"
    else if variance ≤ (49/400) * mean ^ 2 then "Medium"
    else if variance ≤ (1/4) * mean ^ 2 then "Low"
    else "Very Low"
  else "Very Low"   -- cv is set to 1.0, which exceeds every cutoff

/-- The `len(valid_results) >= 2` branch (lines 153-178):
`combined_score = int(weighted_sum / total_confidence) if total_confidence > 0 else 0`,
consensus level from the coefficient of variation of the valid scores. -/
def combineMulti (valid : List ScoringResult) : CombinedAnalysis :=
  let ws := weightedSum valid
  let tc := totalConfidence valid
  let combined : ℚ := if 0 < tc then ((pyInt (ws / tc) : ℤ) : ℚ) else 0
  let scores := valid.map (fun r => r.overall_score)
  let mean := scores.sum / (scores.length : ℚ)
  let variance := (scores.map (fun s => (s - mean) ^ 2)).sum / (scores.length : ℚ)
  { overall_score := combined, consensus_level := consensusBand variance mean }

/-- The `len(valid_results) == 0` fallback branch (lines 187-202):
`int(skills*0.35 + experience*0.30 + education*0.15 + 0*0.20)`,
consensus level `"Fallback Only"`. -/
def fallbackCombine (sa : StructuredAnalysis) : CombinedAnalysis :=
  { overall_score :=
      ((pyInt (sa.skills_match_percentage * (35/100)
               + sa.level_match_score * (30/100)
               + sa.degree_level_score * (15/100)
               + 0 * (20/100)) : ℤ) : ℚ),
    consensus_level := "Fallback Only" }

/-- `DualScoringEngine._intelligent_score_combination` (lines 148-226),
restricted to the combined score and consensus level. -/
def intelligentScoreCombination (rs : List ScoringResult)
    (sa : StructuredAnalysis) : CombinedAnalysis :=
  let valid := validResults rs
  if 2 ≤ valid.length then combineMulti valid
  else
    match valid with
    | [r] =>
        { overall_score := r.overall_score,
          consensus_level := "Single Model (" ++ r.getProvider ++ ")" }
    | _ => fallbackCombine sa

/-!
## Intent / alignment subsystem (src/utils/structured_comments.py)

`GPTMultiDimensionalAnalyzer._extract_job_requirements` derives the validation
signals from the (lowercased) job description and title; the per-dimension
`_validate_*` methods turn a claim plus those signals into an alignment score;
`calculate_multi_dimensional_bonuses` turns alignment scores into the bonuses
map.  The GPT extraction of claims from free text is an external collaborator:
its outputs (claim strings, strengths) are the inputs of these functions.
The availability and experience-level validators are not referenced by any
claim; their alignment scores enter the embedding as parameters of the bonus
calculation only.
-/

/-- The fixed keyword table of `_extract_job_requirements` (lines 118-120). -/
def techKeywords : List String :=
  ["python", "javascript", "java", "react", "angular", "vue", "django", "flask",
   "spring", "node.js", "aws", "azure", "gcp", "docker", "kubernetes", "sql",
   "postgresql", "mysql", "mongodb", "redis", "git", "ci/cd", "rest", "api"]

/-- A tech keyword is *required* when one of the phrases
`required {tech}` / `must have {tech}` / `{tech} required` occurs in the
(lowercased) description (lines 125-127). -/
def isRequiredTech (tech desc : String) : Bool :=
  containsAnySub ["required " ++ tech, "must have " ++ tech, tech ++ " required"] desc

/-- `required_tech` of `_extract_job_requirements` (`desc` already lowercased). -/
def extractRequiredTech (desc : String) : List String :=
  techKeywords.filter (fun tech => isRequiredTech tech desc)

/-- `preferred_tech` of `_extract_job_requirements`: the `elif tech in
description` arm (lines 128-129). -/
def extractPreferredTech (desc : String) : List String :=
  techKeywords.filter (fun tech => !isRequiredTech tech desc && containsSub tech desc)

/-- The work-arrangement signal of `_extract_job_requirements` (lines 131-138),
on the lowercased description. -/
def extractWorkArrangement (desc : String) : String :=
  if containsAnySub ["remote", "work from home", "distributed"] desc then "remote"
  else if containsAnySub ["office", "onsite", "on-site", "in-person"] desc then "onsite"
  else if containsSub "hybrid" desc then "hybrid"
  else "flexible"

/-- Work-arrangement signal from the raw job description (the caller lowercases
with `.lower()`). -/
def jobWorkArrangement (description : String) : String :=
  extractWorkArrangement (pyLower description)

/-- `_validate_work_arrangement_alignment` (lines 292-317): gate on an empty
claim or strength < 0.3, then the fixed compatibility table, then the strength
multiplier. -/
def validateWorkArrangement (preferred_arrangement : String)
    (arrangement_strength : ℚ) (job_arrangement : String) : ℚ :=
  if preferred_arrangement = "" ∨ arrangement_strength < 3/10 then 0
  else
    let user_pref := pyLower preferred_arrangement
    let score : ℚ :=
      if user_pref = job_arrangement then 1
      else if user_pref = "flexible" ∨ job_arrangement = "flexible" then 4/5
      else if user_pref = "hybrid" ∧ (job_arrangement = "remote" ∨ job_arrangement = "onsite") then 3/5
      else if user_pref = "remote" ∧ job_arrangement = "hybrid" then 7/10
      else if user_pref = "onsite" ∧ job_arrangement = "hybrid" then 1/2
      else 0
    score * arrangement_strength

/-- `_validate_technical_alignment` (lines 234-290). -/
def validateTechnical (claimed_skills experience_claims : List String)
    (technical_confidence : ℚ) (required_tech preferred_tech : List String) : ℚ :=
  if claimed_skills = [] ∧ experience_claims = [] then 0
  else if required_tech ++ preferred_tech = [] then 0
  else
    let claimed_lower := claimed_skills.map pyLower
    let required_matches :=
      (required_tech.filter (fun t => claimed_lower.contains (pyLower t))).length
    let preferred_matches :=
      (preferred_tech.filter (fun t => claimed_lower.contains (pyLower t))).length
    let isPartial := fun (t : String) =>
      claimed_lower.any (fun s => containsSub (pyLower t) s || containsSub s (pyLower t))
    let partial_required := (required_tech.filter isPartial).length
    let partial_preferred := (preferred_tech.filter isPartial).length
    let required_score : ℚ :=
      if required_tech ≠ [] then
        ((required_matches : ℚ) + (1/2) * (partial_required : ℚ)) / (required_tech.length : ℚ)
      else 0
    let preferred_score : ℚ :=
      if preferred_tech ≠ [] then
        ((preferred_matches : ℚ) + (1/2) * (partial_preferred : ℚ)) / (preferred_tech.length : ℚ)
      else 0
    let base_score : ℚ :=
      if required_tech ≠ [] ∧ preferred_tech ≠ [] then
        required_score * (7/10) + preferred_score * (3/10)
      else if required_tech ≠ [] then required_score
      else preferred_score
    if base_score = 0 then 0
    else min 1 (base_score * max (1/2) technical_confidence)

/-- The fixed `role_keywords` table of `_validate_role_focus_alignment`
(lines 356-364). -/
def roleKeywords : List (String × List String) :=
  [("frontend", ["frontend", "front-end", "ui", "ux", "react", "angular", "vue",
                 "css", "html", "javascript"]),
   ("backend", ["backend", "back-end", "api", "server", "database",
                "microservices", "rest"]),
   ("fullstack", ["fullstack", "full-stack", "full stack"]),
   ("data", ["data", "analytics", "machine learning", "ml", "ai", "analysis",
             "scientist"]),
   ("devops", ["devops", "infrastructure", "deployment", "ci/cd", "docker",
               "kubernetes", "aws"]),
   ("mobile", ["mobile", "ios", "android", "react native", "flutter", "app"]),
   ("web", ["web", "website", "application", "development"])]

/-- The `job_focus` list of `_validate_role_focus_alignment` (lines 366-370),
on the lowercased job title and description. -/
def jobFocus (title desc : String) : List String :=
  (roleKeywords.filter (fun p => p.2.any (fun k => containsSub k title || containsSub k desc))).map
    Prod.fst

/-- `_validate_role_focus_alignment` (lines 346-396). -/
def validateRoleFocus (role_interests focus_areas : List String)
    (title desc : String) : ℚ :=
  if role_interests = [] ∧ focus_areas = [] then 0
  else
    let focus := jobFocus title desc
    if focus = [] then 0
    else
      let user_interests := (role_interests ++ focus_areas).map pyLower
      let user_text := String.intercalate " " user_interests
      let alignment_count :=
        (focus.filter (fun ft =>
          ((roleKeywords.lookup ft).getD []).any (fun k =>
            containsSub k user_text || user_interests.any (fun uw => containsSub uw k)))).length
      if 0 < alignment_count then (alignment_count : ℚ) / (focus.length : ℚ) else 0

/-- `calculate_multi_dimensional_bonuses` (lines 429-453): a dimension gets an
entry in the bonuses map only when its alignment score is strictly positive;
the caps are 8 / 4 / 3 / 3 / 2 points.  The map is embedded as an association
list in insertion order. -/
def calculateMultiDimensionalBonuses (technical work availability role_focus
    experience_level : ℚ) : List (String × ℚ) :=
  (if 0 < technical then [("technical_alignment", technical * 8)] else []) ++
  (if 0 < work then [("work_arrangement", work * 4)] else []) ++
  (if 0 < availability then [("availability", availability * 3)] else []) ++
  (if 0 < role_focus then [("role_focus", role_focus * 3)] else []) ++
  (if 0 < experience_level then [("experience_level", experience_level * 2)] else [])

/-- `total_bonus = sum(bonuses.values())` (`process_user_comments`, line 550). -/
def totalBonus (bonuses : List (String × ℚ)) : ℚ :=
  (bonuses.map Prod.snd).sum

/-!
## Experience date parsing (`BaseScoringEngine._extract_years_from_date`,
src/utils/base_scoring_engine.py lines 218-245)

The method lowercases the date string and tries four regular expressions in
order (`re.search`); after the first match, it returns
`current_year - group(1)` when the whole string contains `present`/`current`,
else `group(2) - group(1)` when the matched pattern has ≥ 2 groups, else `1`;
`0` when nothing matches.  Each pattern is embedded as a leftmost-match
scanner over the character list.  Every produced value is an integer, so the
result type is ℤ.
-/

/-- Numeric value of a decimal digit character. -/
def digitVal (c : Char) : ℤ := (c.toNat : ℤ) - 48

/-- Match `\d{4}` at the head of the list: the 4-digit number and the rest. -/
def take4Digits : List Char → Option (ℤ × List Char)
  | c1 :: c2 :: c3 :: c4 :: rest =>
    if c1.isDigit && c2.isDigit && c3.isDigit && c4.isDigit then
      some (digitVal c1 * 1000 + digitVal c2 * 100 + digitVal c3 * 10 + digitVal c4, rest)
    else none
  | _ => none

/-- `\s*`: skip whitespace greedily. -/
def skipSpaces (s : List Char) : List Char := s.dropWhile Char.isWhitespace

/-- `[-–]`: hyphen or en dash. -/
def isDash (c : Char) : Bool := c == '-' || c == '–'

/-- Match `\s*[-–]\s*` at the head of the list. -/
def takeDash (s : List Char) : Option (List Char) :=
  match skipSpaces s with
  | c :: rest => if isDash c then some (skipSpaces rest) else none
  | [] => none

/-- Match `(\d{1,2})/` at the head (greedy, with the regex backtracking from
two digits to one when no slash follows the second digit). -/
def takeMonthSlash : List Char → Option (ℤ × List Char)
  | c1 :: c2 :: c3 :: rest =>
    if c1.isDigit && c2.isDigit && c3 == '/' then
      some (digitVal c1 * 10 + digitVal c2, rest)
    else if c1.isDigit && c2 == '/' then some (digitVal c1, c3 :: rest)
    else none
  | [c1, c2] => if c1.isDigit && c2 == '/' then some (digitVal c1, []) else none
  | _ => none

/-- Pattern `(\d{4})\s*[-–]\s*(\d{4})` at the current position. -/
def matchRangeAt (s : List Char) : Option (ℤ × ℤ) := do
  let (y1, r1) ← take4Digits s
  let r2 ← takeDash r1
  let (y2, _) ← take4Digits r2
  pure (y1, y2)

/-- Pattern `(\d{4})\s*[-–]\s*(?:present|current)` at the current position. -/
def matchPresentAt (s : List Char) : Option ℤ := do
  let (y1, r1) ← take4Digits s
  let r2 ← takeDash r1
  if "present".toList.isPrefixOf r2 || "current".toList.isPrefixOf r2 then
    pure y1
  else none

/-- Pattern `(\d{1,2})/(\d{4})\s*[-–]\s*(\d{1,2})/(\d{4})` at the current
position, returning the first two capture groups — the only ones the code
reads: the *first month* and the *first year*. -/
def matchMonthRangeAt (s : List Char) : Option (ℤ × ℤ) := do
  let (m1, r1) ← takeMonthSlash s
  let (y1, r2) ← take4Digits r1
  let r3 ← takeDash r2
  let (_, r4) ← takeMonthSlash r3
  let (_, _) ← take4Digits r4
  pure (m1, y1)

/-- Pattern `(\d{4})` at the current position. -/
def matchYearAt (s : List Char) : Option ℤ := (take4Digits s).map Prod.fst

/-- `re.search`: the result of the pattern at the leftmost matching position. -/
def search {α : Type} (m : List Char → Option α) : List Char → Option α
  | [] => m []
  | c :: t =>
    match m (c :: t) with
    | some r => some r
    | none => search m t

/-- `'present' in s or 'current' in s` on the lowercased string. -/
def hasPresent (s : List Char) : Bool :=
  listContains "present".toList s || listContains "current".toList s

/-- `BaseScoringEngine._extract_years_from_date` (lines 218-245). -/
def extractYearsFromDate (date_str : String) (current_year : ℤ) : ℤ :=
  if date_str = "" then 0
  else
    let s := (pyLower date_str).toList
    match search matchRangeAt s with
    | some (y1, y2) => if hasPresent s then current_year - y1 else y2 - y1
    | none =>
      match search matchPresentAt s with
      | some y1 => if hasPresent s then current_year - y1 else 1
      | none =>
        match search matchMonthRangeAt s with
        | some (g1, g2) => if hasPresent s then current_year - g1 else g2 - g1
        | none =>
          match search matchYearAt s with
          | some y1 => if hasPresent s then current_year - y1 else 1
          | none => 0

/-- Modelled from the spec: the `IntentBonusApplier` (spec §4.6) — the
component that adds the intent bonus to the consensus base score — has no
mechanical implementation under `src/` (the repository only injects the bonus
into the judges' prompt text in `base_scoring_engine._create_base_prompt`).
Following the spec's words: `final = min(100, base_score + total_bonus)`. -/
def applyIntentBonus (base_score total_bonus : ℚ) : ℚ :=
  min 100 (base_score + total_bonus)

/-- The specification's per-judge confidence formula, stated the way the
claim words it: a base of 0.9 / 0.7 / 0.4 for self-reported High / Medium /
Low (0.5 otherwise), plus an additive +0.1 adjustment for extreme scores
(≥85 or ≤25), −0.1 for mid-band scores (40-70), −0.2 when a fallback was
used, the sum clamped into [0.1, 1]. -/
def specScoreAdj (score : ℚ) : ℚ :=
  if 85 ≤ score ∨ score ≤ 25 then 1/10
  else if 40 ≤ score ∧ score ≤ 70 then -(1/10)
  else 0

def specFallbackAdj (fallback : Bool) : ℚ :=
  if fallback then -(1/5) else 0

def specConfidence (r : ScoringResult) : ℚ :=
  max (1/10) (min 1
    (ScoringResult.baseConfidence (pyLower r.confidence_level)
      + specScoreAdj r.overall_score + specFallbackAdj r.fallback_used))

/-- Minimum of a list of rationals (0 on the empty list; used only on
nonempty lists of judge scores). -/
def qmin : List ℚ → ℚ
  | [] => 0
  | [x] => x
  | x :: xs => min x (qmin xs)

/-- Maximum of a list of rationals (0 on the empty list). -/
def qmax : List ℚ → ℚ
  | [] => 0
  | [x] => x
  | x :: xs => max x (qmax xs)

/-!
## Helper lemmas
-/

theorem weightedSum_nil : weightedSum [] = 0 := rfl

theorem weightedSum_cons (r : ScoringResult) (t : List ScoringResult) :
    weightedSum (r :: t) = r.overall_score * r.calcConfidence + weightedSum t := by
  simp [weightedSum]

theorem totalConfidence_nil : totalConfidence [] = 0 := rfl

theorem totalConfidence_cons (r : ScoringResult) (t : List ScoringResult) :
    totalConfidence (r :: t) = r.calcConfidence + totalConfidence t := by
  simp [totalConfidence]

theorem pyInt_eq_floor (q : ℚ) (h : 0 ≤ q) : pyInt q = ⌊q⌋ := if_pos h

theorem ScoringResult.calcConfidence_lower (r : ScoringResult)
    (h : r.error_occurred = false) : 1/10 ≤ r.calcConfidence := by
  unfold ScoringResult.calcConfidence
  rw [h]
  simp only [Bool.false_eq_true, if_false]
  exact le_max_left _ _

theorem ScoringResult.calcConfidence_upper (r : ScoringResult)
    (h : r.error_occurred = false) : r.calcConfidence ≤ 1 := by
  unfold ScoringResult.calcConfidence
  rw [h]
  simp only [Bool.false_eq_true, if_false]
  exact max_le (by norm_num) (min_le_left _ _)

theorem ScoringResult.calcConfidence_nonneg (r : ScoringResult) :
    0 ≤ r.calcConfidence := by
  cases h : r.error_occurred with
  | false => exact le_trans (by norm_num) (r.calcConfidence_lower h)
  | true => unfold ScoringResult.calcConfidence; rw [h]; simp

theorem mem_validResults {r : ScoringResult} {rs : List ScoringResult}
    (h : r ∈ validResults rs) :
    r.error_occurred = false ∧ 0 < r.overall_score := by
  unfold validResults at h
  have := List.of_mem_filter h
  simp only [Bool.and_eq_true, Bool.not_eq_true', decide_eq_true_eq] at this
  exact this

theorem totalConfidence_pos (l : List ScoringResult)
    (h : ∀ r ∈ l, r.error_occurred = false) (hne : l ≠ []) :
    0 < totalConfidence l := by
  unfold totalConfidence
  apply List.sum_pos
  · intro q hq
    rcases List.mem_map.mp hq with ⟨r, hr, rfl⟩
    exact lt_of_lt_of_le (by norm_num) (r.calcConfidence_lower (h r hr))
  · simpa using hne

theorem weightedSum_nonneg (l : List ScoringResult)
    (h : ∀ r ∈ l, 0 ≤ r.overall_score) : 0 ≤ weightedSum l := by
  unfold weightedSum
  apply List.sum_nonneg
  intro q hq
  rcases List.mem_map.mp hq with ⟨r, hr, rfl⟩
  exact mul_nonneg (h r hr) r.calcConfidence_nonneg

theorem totalBonus_append (xs ys : List (String × ℚ)) :
    totalBonus (xs ++ ys) = totalBonus xs + totalBonus ys := by
  simp [totalBonus]

theorem totalBonus_if_single (x c : ℚ) (s : String) (hc : 0 ≤ c) :
    0 ≤ totalBonus (if 0 < x then [(s, x * c)] else []) := by
  split_ifs with hx
  · simpa [totalBonus] using mul_nonneg hx.le hc
  · simp [totalBonus]

theorem totalBonus_nonneg (t w a rf e : ℚ) :
    0 ≤ totalBonus (calculateMultiDimensionalBonuses t w a rf e) := by
  unfold calculateMultiDimensionalBonuses
  rw [totalBonus_append, totalBonus_append, totalBonus_append, totalBonus_append]
  have h1 := totalBonus_if_single t 8 "technical_alignment" (by norm_num)
  have h2 := totalBonus_if_single w 4 "work_arrangement" (by norm_num)
  have h3 := totalBonus_if_single a 3 "availability" (by norm_num)
  have h4 := totalBonus_if_single rf 3 "role_focus" (by norm_num)
  have h5 := totalBonus_if_single e 2 "experience_level" (by norm_num)
  linarith

theorem mem_if_single (x c : ℚ) (s k : String) :
    (k ∈ (if 0 < x then [(s, x * c)] else []).map Prod.fst) ↔ (k = s ∧ 0 < x) := by
  split_ifs with hx <;> simp [hx]

theorem mem_bonuses_keys (t w a rf e : ℚ) (k : String) :
    k ∈ (calculateMultiDimensionalBonuses t w a rf e).map Prod.fst ↔
      (k = "technical_alignment" ∧ 0 < t) ∨ (k = "work_arrangement" ∧ 0 < w) ∨
      (k = "availability" ∧ 0 < a) ∨ (k = "role_focus" ∧ 0 < rf) ∨
      (k = "experience_level" ∧ 0 < e) := by
  unfold calculateMultiDimensionalBonuses
  simp only [List.map_append, List.mem_append, mem_if_single]
  tauto

theorem iSC_multi (rs : List ScoringResult) (sa : StructuredAnalysis)
    (h : 2 ≤ (validResults rs).length) :
    intelligentScoreCombination rs sa = combineMulti (validResults rs) := by
  unfold intelligentScoreCombination
  simp only [if_pos h]

theorem iSC_single (rs : List ScoringResult) (sa : StructuredAnalysis)
    (r : ScoringResult) (h : validResults rs = [r]) :
    intelligentScoreCombination rs sa =
      { overall_score := r.overall_score,
        consensus_level := "Single Model (" ++ r.getProvider ++ ")" } := by
  unfold intelligentScoreCombination
  rw [h]
  norm_num

theorem iSC_fallback (rs : List ScoringResult) (sa : StructuredAnalysis)
    (h : validResults rs = []) :
    intelligentScoreCombination rs sa = fallbackCombine sa := by
  unfold intelligentScoreCombination
  rw [h]
  norm_num

theorem combineMulti_score (v : List ScoringResult) (h : 0 < totalConfidence v) :
    (combineMulti v).overall_score = ((pyInt (weightedSum v / totalConfidence v) : ℤ) : ℚ) := by
  unfold combineMulti
  simp only [if_pos h]

/-!
## Lemmas for the date parser: digit-free strings never match
-/

theorem take4Digits_none (t : List Char) (h : ∀ c ∈ t, c.isDigit = false) :
    take4Digits t = none := by
  rcases t with _ | ⟨c1, _ | ⟨c2, _ | ⟨c3, _ | ⟨c4, rest⟩⟩⟩⟩
  · rfl
  · rfl
  · rfl
  · rfl
  · simp only [take4Digits]
    rw [h c1 (by simp)]
    simp

theorem takeMonthSlash_none (t : List Char) (h : ∀ c ∈ t, c.isDigit = false) :
    takeMonthSlash t = none := by
  rcases t with _ | ⟨c1, _ | ⟨c2, _ | ⟨c3, rest⟩⟩⟩
  · rfl
  · rfl
  · simp only [takeMonthSlash]
    rw [h c1 (by simp)]
    simp
  · simp only [takeMonthSlash]
    rw [h c1 (by simp)]
    simp

theorem matchRangeAt_none (s : List Char) (h : ∀ c ∈ s, c.isDigit = false) :
    matchRangeAt s = none := by
  unfold matchRangeAt
  rw [take4Digits_none s h]
  rfl

theorem matchPresentAt_none (s : List Char) (h : ∀ c ∈ s, c.isDigit = false) :
    matchPresentAt s = none := by
  unfold matchPresentAt
  rw [take4Digits_none s h]
  rfl

theorem matchMonthRangeAt_none (s : List Char) (h : ∀ c ∈ s, c.isDigit = false) :
    matchMonthRangeAt s = none := by
  unfold matchMonthRangeAt
  rw [takeMonthSlash_none s h]
  rfl

theorem matchYearAt_none (s : List Char) (h : ∀ c ∈ s, c.isDigit = false) :
    matchYearAt s = none := by
  unfold matchYearAt
  rw [take4Digits_none s h]
  rfl

theorem search_none {α : Type} (m : List Char → Option α)
    (hm : ∀ t, (∀ c ∈ t, c.isDigit = false) → m t = none) :
    ∀ s, (∀ c ∈ s, c.isDigit = false) → search m s = none := by
  intro s
  induction s with
  | nil => intro h; exact hm [] h
  | cons c t ih =>
    intro h
    unfold search
    rw [hm (c :: t) h]
    exact ih (fun x hx => h x (List.mem_cons_of_mem c hx))

/-!
## The claims
-/

/-- C2: the final reported score is `min(100, base + total_bonus)` (the
`IntentBonusApplier` is modelled from the spec, see `applyIntentBonus`), so it
never exceeds 100 — in particular base 95 with bonus 18 gives 100, not 113 —
and the commentary adjustment (the total bonus computed by
`calculate_multi_dimensional_bonuses`) is never negative. -/
theorem C2_bonus_cap_and_floor (base t w a rf e : ℚ) :
    applyIntentBonus base (totalBonus (calculateMultiDimensionalBonuses t w a rf e)) =
      min 100 (base + totalBonus (calculateMultiDimensionalBonuses t w a rf e)) ∧
    applyIntentBonus base (totalBonus (calculateMultiDimensionalBonuses t w a rf e)) ≤ 100 ∧
    0 ≤ totalBonus (calculateMultiDimensionalBonuses t w a rf e) ∧
    applyIntentBonus 95 18 = 100 := by
  refine ⟨rfl, min_le_left _ _, totalBonus_nonneg t w a rf e, ?_⟩
  unfold applyIntentBonus
  norm_num

/-- C6: with the job description "fully remote position working from home"
(extracted work arrangement: remote) and a candidate onsite preference claimed
with strength at or above the 0.3 threshold, the work-arrangement alignment
score is exactly 0 — not a smaller positive number — and no
`work_arrangement` key appears in the bonuses map, whatever the other
dimensions contribute. -/
theorem C6_remote_onsite_conflict (strength t a rf e : ℚ) (h : 3/10 ≤ strength) :
    validateWorkArrangement "onsite" strength
        (jobWorkArrangement "fully remote position working from home") = 0 ∧
    "work_arrangement" ∉
      (calculateMultiDimensionalBonuses t
        (validateWorkArrangement "onsite" strength
          (jobWorkArrangement "fully remote position working from home"))
        a rf e).map Prod.fst := by
  have harr : jobWorkArrangement "fully remote position working from home" = "remote" := by
    decide
  have hval : validateWorkArrangement "onsite" strength "remote" = 0 := by
    unfold validateWorkArrangement
    rw [if_neg]
    · simp +decide
    · push_neg
      exact ⟨by decide, h⟩
  rw [harr, hval]
  refine ⟨rfl, ?_⟩
  rw [mem_bonuses_keys]
  simp +decide

/-- C6 witness: the conflict scenario at strength 1. -/
theorem C6_witness :
    validateWorkArrangement "onsite" 1
        (jobWorkArrangement "fully remote position working from home") = 0 ∧
    "work_arrangement" ∉
      (calculateMultiDimensionalBonuses 0
        (validateWorkArrangement "onsite" 1
          (jobWorkArrangement "fully remote position working from home"))
        0 0 0).map Prod.fst :=
  C6_remote_onsite_conflict 1 0 0 0 0 (by norm_num)

/-- C7: a claimed dimension with no job-derived signal to validate against
gets alignment score 0 and contributes no bonus: technical claims when the
job description yields no required and no preferred tech keywords, and
role-focus claims when no job focus is determinable from title or
description. -/
theorem C7_no_signal_no_bonus (desc title : String) (skills claims : List String)
    (conf : ℚ) (interests areas : List String) (w a e : ℚ)
    (h1 : extractRequiredTech (pyLower desc) = [])
    (h2 : extractPreferredTech (pyLower desc) = [])
    (hfocus : jobFocus (pyLower title) (pyLower desc) = []) :
    validateTechnical skills claims conf (extractRequiredTech (pyLower desc))
        (extractPreferredTech (pyLower desc)) = 0 ∧
    validateRoleFocus interests areas (pyLower title) (pyLower desc) = 0 ∧
    "technical_alignment" ∉
      (calculateMultiDimensionalBonuses
        (validateTechnical skills claims conf (extractRequiredTech (pyLower desc))
          (extractPreferredTech (pyLower desc)))
        w a (validateRoleFocus interests areas (pyLower title) (pyLower desc))
        e).map Prod.fst ∧
    "role_focus" ∉
      (calculateMultiDimensionalBonuses
        (validateTechnical skills claims conf (extractRequiredTech (pyLower desc))
          (extractPreferredTech (pyLower desc)))
        w a (validateRoleFocus interests areas (pyLower title) (pyLower desc))
        e).map Prod.fst := by
  have hT : validateTechnical skills claims conf [] [] = 0 := by
    unfold validateTechnical
    by_cases hc : skills = [] ∧ claims = []
    · rw [if_pos hc]
    · rw [if_neg hc, if_pos (show ([] : List String) ++ [] = [] from rfl)]
  have hR : validateRoleFocus interests areas (pyLower title) (pyLower desc) = 0 := by
    unfold validateRoleFocus
    rw [hfocus]
    simp
  rw [h1, h2, hT, hR]
  refine ⟨rfl, rfl, ?_, ?_⟩ <;>
    · rw [mem_bonuses_keys]
      simp +decide

/-- C7 witness: a job text with no tech keywords and no determinable focus. -/
theorem C7_witness :
    validateTechnical ["python"] [] 1
        (extractRequiredTech (pyLower "hiring wonderful humans"))
        (extractPreferredTech (pyLower "hiring wonderful humans")) = 0 ∧
    validateRoleFocus ["backend"] [] (pyLower "nurse")
        (pyLower "hiring wonderful humans") = 0 ∧
    "technical_alignment" ∉
      (calculateMultiDimensionalBonuses
        (validateTechnical ["python"] [] 1
          (extractRequiredTech (pyLower "hiring wonderful humans"))
          (extractPreferredTech (pyLower "hiring wonderful humans")))
        0 0 (validateRoleFocus ["backend"] [] (pyLower "nurse")
          (pyLower "hiring wonderful humans"))
        0).map Prod.fst ∧
    "role_focus" ∉
      (calculateMultiDimensionalBonuses
        (validateTechnical ["python"] [] 1
          (extractRequiredTech (pyLower "hiring wonderful humans"))
          (extractPreferredTech (pyLower "hiring wonderful humans")))
        0 0 (validateRoleFocus ["backend"] [] (pyLower "nurse")
          (pyLower "hiring wonderful humans"))
        0).map Prod.fst :=
  C7_no_signal_no_bonus "hiring wonderful humans" "nurse" ["python"] [] 1
    ["backend"] [] 0 0 0 (by decide) (by decide) (by decide)

/-- C8 (amended): the date parser never raises and returns 0 on input whose
lowercasing contains no digit; the documented patterns give the documented
spans ("2020-present" in 2025 → 5 years, "2018-2020" → 2 years,
"sometime" → 0).  The original nonnegativity clause is refuted by
`C8_counterexample`: a reversed range yields a negative span. -/
theorem C8_date_parsing :
    (∀ (s : String) (y : ℤ), (∀ c ∈ (pyLower s).toList, c.isDigit = false) →
        extractYearsFromDate s y = 0) ∧
    extractYearsFromDate "2020-present" 2025 = 5 ∧
    extractYearsFromDate "2018-2020" 2025 = 2 ∧
    extractYearsFromDate "sometime" 2025 = 0 := by
  refine ⟨?_, by decide, by decide, by decide⟩
  intro s y h
  unfold extractYearsFromDate
  split_ifs with h0
  · rfl
  · simp only [search_none matchRangeAt matchRangeAt_none _ h,
        search_none matchPresentAt matchPresentAt_none _ h,
        search_none matchMonthRangeAt matchMonthRangeAt_none _ h,
        search_none matchYearAt matchYearAt_none _ h]

/-- C8 witness: a digit-free date string parses to 0 years. -/
theorem C8_witness : extractYearsFromDate "no digits at all" 2024 = 0 :=
  C8_date_parsing.1 "no digits at all" 2024 (by decide)

/-- C8 counterexample: the reversed range "2021-2019" yields −2 years, so the
extracted value is not always ≥ 0. -/
theorem C8_counterexample :
    extractYearsFromDate "2021-2019" 2025 = -2 ∧
    extractYearsFromDate "2021-2019" 2025 < 0 := by
  exact ⟨by decide, by decide⟩

theorem validResults_totalConfidence_pos (rs : List ScoringResult)
    (h : 2 ≤ (validResults rs).length) : 0 < totalConfidence (validResults rs) := by
  have hne : validResults rs ≠ [] := by
    intro he
    rw [he] at h
    norm_num at h
  exact totalConfidence_pos _ (fun r hr => (mem_validResults hr).1) hne

theorem iSC_multi_floor (rs : List ScoringResult) (sa : StructuredAnalysis)
    (h : 2 ≤ (validResults rs).length) :
    (intelligentScoreCombination rs sa).overall_score =
      ((⌊weightedSum (validResults rs) / totalConfidence (validResults rs)⌋ : ℤ) : ℚ) := by
  have htc := validResults_totalConfidence_pos rs h
  have hws : 0 ≤ weightedSum (validResults rs) :=
    weightedSum_nonneg _ (fun r hr => (mem_validResults hr).2.le)
  rw [iSC_multi rs sa h, combineMulti_score _ htc,
      pyInt_eq_floor _ (div_nonneg hws htc.le)]

/-- C1 (amended): with at least two valid judges the combined score is the
confidence-weighted mean *truncated* by Python's `int()` (equivalently its
floor, the mean being nonnegative) — not rounded to nearest, which
`C1_counterexample` refutes. -/
theorem C1_weighted_mean_trunc (rs : List ScoringResult) (sa : StructuredAnalysis)
    (h : 2 ≤ (validResults rs).length) :
    (intelligentScoreCombination rs sa).overall_score =
      ((⌊weightedSum (validResults rs) / totalConfidence (validResults rs)⌋ : ℤ) : ℚ) :=
  iSC_multi_floor rs sa h

/-- C1 witness: two valid judges (scores 90 and 55). -/
theorem C1_witness :
    (intelligentScoreCombination
      [⟨90, "High", false, false, true, false⟩, ⟨55, "Medium", false, false, false, true⟩]
      ⟨0, 50, 50⟩).overall_score =
      ((⌊weightedSum (validResults [⟨90, "High", false, false, true, false⟩,
            ⟨55, "Medium", false, false, false, true⟩]) /
          totalConfidence (validResults [⟨90, "High", false, false, true, false⟩,
            ⟨55, "Medium", false, false, false, true⟩])⌋ : ℤ) : ℚ) :=
  C1_weighted_mean_trunc _ _ (by simp +decide [validResults])

/-- C1 counterexample: judges (90, High) and (55, Medium) get confidences 1.0
and 0.6; the weighted mean is 123/1.6 = 76.875, which the code truncates to
76 while rounding to nearest gives 77. -/
theorem C1_counterexample :
    (intelligentScoreCombination
      [⟨90, "High", false, false, true, false⟩, ⟨55, "Medium", false, false, false, true⟩]
      ⟨0, 50, 50⟩).overall_score = 76 ∧
    round (weightedSum (validResults [⟨90, "High", false, false, true, false⟩,
        ⟨55, "Medium", false, false, false, true⟩]) /
      totalConfidence (validResults [⟨90, "High", false, false, true, false⟩,
        ⟨55, "Medium", false, false, false, true⟩])) = 77 ∧
    (intelligentScoreCombination
      [⟨90, "High", false, false, true, false⟩, ⟨55, "Medium", false, false, false, true⟩]
      ⟨0, 50, 50⟩).overall_score ≠
      ((round (weightedSum (validResults [⟨90, "High", false, false, true, false⟩,
            ⟨55, "Medium", false, false, false, true⟩]) /
          totalConfidence (validResults [⟨90, "High", false, false, true, false⟩,
            ⟨55, "Medium", false, false, false, true⟩])) : ℤ) : ℚ) := by
  have hmean : weightedSum (validResults [⟨90, "High", false, false, true, false⟩,
        ⟨55, "Medium", false, false, false, true⟩]) /
      totalConfidence (validResults [⟨90, "High", false, false, true, false⟩,
        ⟨55, "Medium", false, false, false, true⟩]) = 615/8 := by
    simp +decide only [validResults, List.filter, weightedSum, totalConfidence,
      ScoringResult.calcConfidence, ScoringResult.baseConfidence, pyLower,
      List.map, List.sum]
    norm_num
  have hscore : (intelligentScoreCombination
      [⟨90, "High", false, false, true, false⟩, ⟨55, "Medium", false, false, false, true⟩]
      ⟨0, 50, 50⟩).overall_score = 76 := by
    simp +decide only [intelligentScoreCombination, validResults, combineMulti,
      weightedSum, totalConfidence, ScoringResult.calcConfidence,
      ScoringResult.baseConfidence, pyLower, pyInt, List.filter, List.map,
      List.sum, List.length]
    norm_num
  have hround : round ((615 : ℚ)/8) = 77 := by
    rw [round_eq]
    norm_num
  refine ⟨hscore, by rw [hmean]; exact hround, ?_⟩
  rw [hscore, hmean, hround]
  norm_num

/-- C3 (amended): when no judge succeeds, the engine returns the structured
composite `int(skills*0.35 + experience*0.30 + education*0.15 + 0*0.20)` with
the domain term zeroed (`int()` truncates, not rounds — see
`C3_counterexample`), labels the consensus level "Fallback Only" (with a
space), and the result is the same for any two all-failed judge lists over
the same structured analysis (fallback determinism/totality). -/
theorem C3_fallback_composite (rs rs' : List ScoringResult) (sa : StructuredAnalysis)
    (h : validResults rs = []) (h' : validResults rs' = []) :
    (intelligentScoreCombination rs sa).overall_score =
      ((pyInt (sa.skills_match_percentage * (35/100) + sa.level_match_score * (30/100)
        + sa.degree_level_score * (15/100) + 0 * (20/100)) : ℤ) : ℚ) ∧
    (intelligentScoreCombination rs sa).consensus_level = "Fallback Only" ∧
    intelligentScoreCombination rs sa = intelligentScoreCombination rs' sa := by
  rw [iSC_fallback rs sa h, iSC_fallback rs' sa h']
  exact ⟨rfl, rfl, rfl⟩

/-- C3 witness: one errored judge versus no judges at all, over the
structured analysis (81, 50, 50). -/
theorem C3_witness :
    (intelligentScoreCombination [⟨0, "Low", true, false, true, false⟩]
        ⟨81, 50, 50⟩).overall_score =
      ((pyInt ((81 : ℚ) * (35/100) + 50 * (30/100) + 50 * (15/100) + 0 * (20/100)) : ℤ) : ℚ) ∧
    (intelligentScoreCombination [⟨0, "Low", true, false, true, false⟩]
        ⟨81, 50, 50⟩).consensus_level = "Fallback Only" ∧
    intelligentScoreCombination [⟨0, "Low", true, false, true, false⟩] ⟨81, 50, 50⟩ =
      intelligentScoreCombination [] ⟨81, 50, 50⟩ :=
  C3_fallback_composite [⟨0, "Low", true, false, true, false⟩] [] ⟨81, 50, 50⟩
    (by simp +decide [validResults]) rfl

/-- C3 counterexample: both judges failed and the structured sub-scores are
(81, 50, 50).  The composite is 50.85: the code returns 50 (truncation), the
claimed rounding gives 51; and the label is "Fallback Only", not
"FallbackOnly". -/
theorem C3_counterexample :
    (intelligentScoreCombination
      [⟨0, "Low", true, false, true, false⟩, ⟨0, "Low", true, false, false, true⟩]
      ⟨81, 50, 50⟩).overall_score = 50 ∧
    round ((81 : ℚ) * (35/100) + 50 * (30/100) + 50 * (15/100) + 0 * (20/100)) = 51 ∧
    (intelligentScoreCombination
      [⟨0, "Low", true, false, true, false⟩, ⟨0, "Low", true, false, false, true⟩]
      ⟨81, 50, 50⟩).overall_score ≠
      ((round ((81 : ℚ) * (35/100) + 50 * (30/100) + 50 * (15/100) + 0 * (20/100)) : ℤ) : ℚ) ∧
    (intelligentScoreCombination
      [⟨0, "Low", true, false, true, false⟩, ⟨0, "Low", true, false, false, true⟩]
      ⟨81, 50, 50⟩).consensus_level = "Fallback Only" ∧
    (intelligentScoreCombination
      [⟨0, "Low", true, false, true, false⟩, ⟨0, "Low", true, false, false, true⟩]
      ⟨81, 50, 50⟩).consensus_level ≠ "FallbackOnly" := by
  have hv : validResults [⟨0, "Low", true, false, true, false⟩,
      ⟨0, "Low", true, false, false, true⟩] = [] := by
    simp +decide [validResults]
  have H := iSC_fallback _ (⟨81, 50, 50⟩ : StructuredAnalysis) hv
  rw [H]
  have hround : round ((81 : ℚ) * (35/100) + 50 * (30/100) + 50 * (15/100) + 0 * (20/100)) = 51 := by
    rw [round_eq]
    norm_num
  have hscore : (fallbackCombine (⟨81, 50, 50⟩ : StructuredAnalysis)).overall_score = 50 := by
    unfold fallbackCombine pyInt
    norm_num
  refine ⟨hscore, hround, ?_, rfl, by decide⟩
  rw [hscore, hround]
  norm_num

/-- C4 (amended): with exactly one valid judge, the combined score is that
judge's score verbatim, and the consensus level is
`"Single Model (<provider>)"` — not the spec's label "SingleModel", which
`C4_counterexample` refutes. -/
theorem C4_single_model (rs : List ScoringResult) (sa : StructuredAnalysis)
    (r : ScoringResult) (h : validResults rs = [r]) :
    (intelligentScoreCombination rs sa).overall_score = r.overall_score ∧
    (intelligentScoreCombination rs sa).consensus_level =
      "Single Model (" ++ r.getProvider ++ ")" := by
  rw [iSC_single rs sa r h]
  exact ⟨rfl, rfl⟩

/-- C4 witness: an OpenAI judge scoring 77 next to an errored judge. -/
theorem C4_witness :
    (intelligentScoreCombination
      [⟨77, "Medium", false, false, true, false⟩, ⟨0, "Low", true, false, false, true⟩]
      ⟨0, 50, 50⟩).overall_score = 77 ∧
    (intelligentScoreCombination
      [⟨77, "Medium", false, false, true, false⟩, ⟨0, "Low", true, false, false, true⟩]
      ⟨0, 50, 50⟩).consensus_level = "Single Model (OpenAI)" := by
  have H := C4_single_model
    [⟨77, "Medium", false, false, true, false⟩, ⟨0, "Low", true, false, false, true⟩]
    ⟨0, 50, 50⟩ ⟨77, "Medium", false, false, true, false⟩
    (by simp +decide [validResults])
  exact ⟨H.1, by rw [H.2]; decide⟩

/-- C4 counterexample: a single valid judge with score 77 does yield 77, but
the consensus label is "Single Model (OpenAI)", not "SingleModel". -/
theorem C4_counterexample :
    (intelligentScoreCombination
      [⟨77, "High", false, false, true, false⟩, ⟨0, "Low", true, false, false, true⟩]
      ⟨10, 50, 50⟩).overall_score = 77 ∧
    (intelligentScoreCombination
      [⟨77, "High", false, false, true, false⟩, ⟨0, "Low", true, false, false, true⟩]
      ⟨10, 50, 50⟩).consensus_level ≠ "SingleModel" := by
  have hv : validResults [⟨77, "High", false, false, true, false⟩,
      ⟨0, "Low", true, false, false, true⟩] = [⟨77, "High", false, false, true, false⟩] := by
    simp +decide [validResults]
  rw [iSC_single _ (⟨10, 50, 50⟩ : StructuredAnalysis) _ hv]
  exact ⟨rfl, by decide⟩

/-- C5 (amended): for every *non-errored* judge result the computed confidence
is exactly the claim's formula — base by level, additive score and fallback
adjustments, clamp — and lies in [0.1, 1].  The claim's "for every judge
result" is refuted by `C5_counterexample`: an errored result gets
confidence 0. -/
theorem C5_confidence_characterization (r : ScoringResult)
    (h : r.error_occurred = false) :
    r.calcConfidence = specConfidence r ∧
    1/10 ≤ r.calcConfidence ∧ r.calcConfidence ≤ 1 := by
  refine ⟨?_, r.calcConfidence_lower h, r.calcConfidence_upper h⟩
  unfold ScoringResult.calcConfidence specConfidence specScoreAdj specFallbackAdj
  rw [h]
  simp only [Bool.false_eq_true, if_false]
  split_ifs <;> ring_nf

/-- C5 witness: a High-confidence judge scoring 90. -/
theorem C5_witness :
    ScoringResult.calcConfidence ⟨90, "High", false, false, true, false⟩ =
      specConfidence ⟨90, "High", false, false, true, false⟩ ∧
    1/10 ≤ ScoringResult.calcConfidence ⟨90, "High", false, false, true, false⟩ ∧
    ScoringResult.calcConfidence ⟨90, "High", false, false, true, false⟩ ≤ 1 :=
  C5_confidence_characterization ⟨90, "High", false, false, true, false⟩ rfl

/-- C5 counterexample: an errored judge result has confidence 0 — outside the
claimed clamp range [0.1, 1], so the claim fails for *every* judge result. -/
theorem C5_counterexample :
    ScoringResult.calcConfidence ⟨70, "High", true, false, true, false⟩ = 0 ∧
    ¬ (1/10 ≤ ScoringResult.calcConfidence ⟨70, "High", true, false, true, false⟩) := by
  have h : ScoringResult.calcConfidence ⟨70, "High", true, false, true, false⟩ = 0 := by
    unfold ScoringResult.calcConfidence
    simp
  exact ⟨h, by rw [h]; norm_num⟩

/-!
## Lemmas for the weighted-mean range bounds
-/

theorem qmin_le (l : List ℚ) (x : ℚ) (hx : x ∈ l) : qmin l ≤ x := by
  induction l with
  | nil => cases hx
  | cons a t ih =>
    cases t with
    | nil =>
      rw [List.mem_singleton] at hx
      rw [hx]
      simp [qmin]
    | cons b u =>
      rcases List.mem_cons.mp hx with rfl | hmem
      · exact min_le_left _ _
      · exact le_trans (min_le_right _ _) (ih hmem)

theorem le_qmax (l : List ℚ) (x : ℚ) (hx : x ∈ l) : x ≤ qmax l := by
  induction l with
  | nil => cases hx
  | cons a t ih =>
    cases t with
    | nil =>
      rw [List.mem_singleton] at hx
      rw [hx]
      simp [qmax]
    | cons b u =>
      rcases List.mem_cons.mp hx with rfl | hmem
      · exact le_max_left _ _
      · exact le_trans (ih hmem) (le_max_right _ _)

theorem qmin_int (l : List ℚ) (h : ∀ x ∈ l, ∃ n : ℤ, x = (n : ℚ)) (hne : l ≠ []) :
    ∃ n : ℤ, qmin l = (n : ℚ) := by
  induction l with
  | nil => exact absurd rfl hne
  | cons a t ih =>
    cases t with
    | nil => exact h a (by simp)
    | cons b u =>
      obtain ⟨n, hn⟩ := h a (by simp)
      obtain ⟨m, hm⟩ := ih (fun x hx => h x (by simp [hx])) (by simp)
      refine ⟨min n m, ?_⟩
      show min a (qmin (b :: u)) = ((min n m : ℤ) : ℚ)
      rw [hn, hm]
      push_cast
      rfl

theorem weightedSum_lower (l : List ScoringResult) (m : ℚ)
    (h : ∀ r ∈ l, m ≤ r.overall_score) :
    m * totalConfidence l ≤ weightedSum l := by
  induction l with
  | nil => simp [weightedSum_nil, totalConfidence_nil]
  | cons r t ih =>
    rw [weightedSum_cons, totalConfidence_cons]
    have h1 : m ≤ r.overall_score := h r (List.mem_cons_self r t)
    have h2 := ih (fun x hx => h x (List.mem_cons_of_mem r hx))
    have hc := r.calcConfidence_nonneg
    nlinarith

theorem weightedSum_upper (l : List ScoringResult) (M : ℚ)
    (h : ∀ r ∈ l, r.overall_score ≤ M) :
    weightedSum l ≤ M * totalConfidence l := by
  induction l with
  | nil => simp [weightedSum_nil, totalConfidence_nil]
  | cons r t ih =>
    rw [weightedSum_cons, totalConfidence_cons]
    have h1 : r.overall_score ≤ M := h r (List.mem_cons_self r t)
    have h2 := ih (fun x hx => h x (List.mem_cons_of_mem r hx))
    have hc := r.calcConfidence_nonneg
    nlinarith

/-- C10: whenever at least two judge results are valid and their scores are
integers (the judge contract declares `overall_score` an int in [0,100]), the
combined consensus score — including the `int()` conversion — lies between
the minimum and the maximum of the valid judges' scores. -/
theorem C10_combined_in_range (rs : List ScoringResult) (sa : StructuredAnalysis)
    (h2 : 2 ≤ (validResults rs).length)
    (hint : ∀ r ∈ validResults rs, ∃ n : ℤ, r.overall_score = (n : ℚ)) :
    qmin ((validResults rs).map (fun r => r.overall_score)) ≤
        (intelligentScoreCombination rs sa).overall_score ∧
    (intelligentScoreCombination rs sa).overall_score ≤
        qmax ((validResults rs).map (fun r => r.overall_score)) := by
  have htc := validResults_totalConfidence_pos rs h2
  have hfl := iSC_multi_floor rs sa h2
  set v := validResults rs with hv
  set scores := v.map (fun r => r.overall_score) with hscores
  have hmean_lo : qmin scores ≤ weightedSum v / totalConfidence v := by
    rw [le_div_iff htc]
    exact weightedSum_lower v (qmin scores)
      (fun r hr => qmin_le scores _ (by rw [hscores]; exact List.mem_map_of_mem _ hr))
  have hmean_hi : weightedSum v / totalConfidence v ≤ qmax scores := by
    rw [div_le_iff htc]
    exact weightedSum_upper v (qmax scores)
      (fun r hr => le_qmax scores _ (by rw [hscores]; exact List.mem_map_of_mem _ hr))
  constructor
  · obtain ⟨n, hn⟩ := qmin_int scores
      (by
        intro x hx
        rw [hscores] at hx
        rcases List.mem_map.mp hx with ⟨r, hr, rfl⟩
        exact hint r hr)
      (by
        intro he
        rw [hscores] at he
        have := List.map_eq_nil.mp he
        rw [this] at h2
        norm_num at h2)
    rw [hfl, hn]
    have : n ≤ ⌊weightedSum v / totalConfidence v⌋ :=
      Int.le_floor.mpr (by rw [← hn]; exact hmean_lo)
    exact_mod_cast this
  · rw [hfl]
    exact le_trans (Int.floor_le _) hmean_hi

/-- C10 witness: valid judges scoring 80 and 60; the combined score stays in
[60, 80]. -/
theorem C10_witness :
    qmin ((validResults [⟨80, "High", false, false, true, false⟩,
        ⟨60, "Low", false, false, false, true⟩]).map (fun r => r.overall_score)) ≤
      (intelligentScoreCombination [⟨80, "High", false, false, true, false⟩,
        ⟨60, "Low", false, false, false, true⟩] ⟨0, 50, 50⟩).overall_score ∧
    (intelligentScoreCombination [⟨80, "High", false, false, true, false⟩,
        ⟨60, "Low", false, false, false, true⟩] ⟨0, 50, 50⟩).overall_score ≤
      qmax ((validResults [⟨80, "High", false, false, true, false⟩,
        ⟨60, "Low", false, false, false, true⟩]).map (fun r => r.overall_score)) :=
  C10_combined_in_range _ _ (by simp +decide [validResults])
    (by
      intro r hr
      simp +decide [validResults] at hr
      rcases hr with rfl | rfl
      · exact ⟨80, by norm_num⟩
      · exact ⟨60, by norm_num⟩)

/-!
## Lemmas for C9: the realizable confidence values at scores 90 and 50

`_calculate_confidence` takes its base value from a four-way lookup and
applies fixed adjustments, so at a fixed score the confidence ranges over a
finite grid of rationals.
-/

theorem conf_grid_90 (r : ScoringResult) (he : r.error_occurred = false)
    (hs : r.overall_score = 90) :
    r.calcConfidence = 3/10 ∨ r.calcConfidence = 2/5 ∨ r.calcConfidence = 1/2 ∨
    r.calcConfidence = 3/5 ∨ r.calcConfidence = 4/5 ∨ r.calcConfidence = 1 := by
  have h85 : (85:ℚ) ≤ r.overall_score ∨ r.overall_score ≤ 25 := by
    rw [hs]
    norm_num
  simp only [ScoringResult.calcConfidence, ScoringResult.baseConfidence, he,
    Bool.false_eq_true, if_false, if_pos h85]
  split_ifs <;> norm_num

theorem conf_grid_50 (r : ScoringResult) (he : r.error_occurred = false)
    (hs : r.overall_score = 50) :
    r.calcConfidence = 1/10 ∨ r.calcConfidence = 1/5 ∨ r.calcConfidence = 3/10 ∨
    r.calcConfidence = 2/5 ∨ r.calcConfidence = 3/5 ∨ r.calcConfidence = 4/5 := by
  have h85 : ¬((85:ℚ) ≤ r.overall_score ∨ r.overall_score ≤ 25) := by
    rw [hs]
    norm_num
  have hmid : (40:ℚ) ≤ r.overall_score ∧ r.overall_score ≤ 70 := by
    rw [hs]
    norm_num
  simp only [ScoringResult.calcConfidence, ScoringResult.baseConfidence, he,
    Bool.false_eq_true, if_false, if_neg h85, if_pos hmid]
  split_ifs <;> norm_num

theorem iSC_two_score (a b : ScoringResult) (sa : StructuredAnalysis)
    (ha : a.error_occurred = false) (ha2 : 0 < a.overall_score)
    (hb : b.error_occurred = false) (hb2 : 0 < b.overall_score) :
    (intelligentScoreCombination [a, b] sa).overall_score =
      ((pyInt ((a.overall_score * a.calcConfidence + b.overall_score * b.calcConfidence) /
        (a.calcConfidence + b.calcConfidence)) : ℤ) : ℚ) := by
  have hv : validResults [a, b] = [a, b] := by
    simp [validResults, List.filter, ha, hb, ha2, hb2]
  have htc : 0 < totalConfidence [a, b] := by
    have h1 := a.calcConfidence_lower ha
    have h2 := b.calcConfidence_lower hb
    rw [totalConfidence_cons, totalConfidence_cons, totalConfidence_nil]
    linarith
  have hlen : 2 ≤ (validResults [a, b]).length := by
    rw [hv]
    norm_num
  rw [iSC_multi _ sa hlen, hv, combineMulti_score _ htc, weightedSum_cons,
      weightedSum_cons, weightedSum_nil, totalConfidence_cons,
      totalConfidence_cons, totalConfidence_nil, add_zero, add_zero]

/-- C9: with judge A at score 90 and judge B at score 50 (both valid), raising
A's computed confidence while B is held fixed moves the combined score
strictly toward A's score: it strictly increases yet stays below 90.  This
holds for *every* pair of confidence values the code can actually produce at
these scores (the finite grids of `conf_grid_90` and `conf_grid_50`). -/
theorem C9_confidence_monotone (a a' b : ScoringResult) (sa sa' : StructuredAnalysis)
    (ha : a.error_occurred = false) (ha' : a'.error_occurred = false)
    (hb : b.error_occurred = false)
    (hsa : a.overall_score = 90) (hsa' : a'.overall_score = 90)
    (hsb : b.overall_score = 50)
    (hlt : a.calcConfidence < a'.calcConfidence) :
    (intelligentScoreCombination [a, b] sa).overall_score <
      (intelligentScoreCombination [a', b] sa').overall_score ∧
    (intelligentScoreCombination [a', b] sa').overall_score < 90 := by
  rw [iSC_two_score a b sa ha (by rw [hsa]; norm_num) hb (by rw [hsb]; norm_num),
      iSC_two_score a' b sa' ha' (by rw [hsa']; norm_num) hb (by rw [hsb]; norm_num),
      hsa, hsa', hsb]
  rcases conf_grid_90 a ha hsa with h1|h1|h1|h1|h1|h1 <;>
    rcases conf_grid_90 a' ha' hsa' with h2|h2|h2|h2|h2|h2 <;>
    rw [h1, h2] at hlt ⊢ <;>
    first
      | (exfalso; linarith)
      | (rcases conf_grid_50 b hb hsb with h3|h3|h3|h3|h3|h3 <;>
          rw [h3] <;>
          exact ⟨by unfold pyInt; norm_num, by unfold pyInt; norm_num⟩)

/-- C9 witness: A's confidence rises from 0.5 (Low) to 0.8 (Medium) against a
fixed B; the combined score moves from 68 to 72, strictly toward 90. -/
theorem C9_witness :
    (intelligentScoreCombination [⟨90, "Low", false, false, true, false⟩,
        ⟨50, "Medium", false, false, false, true⟩] ⟨0, 50, 50⟩).overall_score <
      (intelligentScoreCombination [⟨90, "Medium", false, false, true, false⟩,
        ⟨50, "Medium", false, false, false, true⟩] ⟨0, 50, 50⟩).overall_score ∧
    (intelligentScoreCombination [⟨90, "Medium", false, false, true, false⟩,
        ⟨50, "Medium", false, false, false, true⟩] ⟨0, 50, 50⟩).overall_score < 90 :=
  C9_confidence_monotone _ _ _ _ _ rfl rfl rfl rfl rfl rfl (by
    simp +decide only [ScoringResult.calcConfidence, ScoringResult.baseConfidence, pyLower]
    norm_num)

end Scorj
